import Mathlib

/-!
Shallow embedding of `skopt/parameter.py`: the search-space description and
sampler (transformers, Real/Integer/Categorical distributions, `check_grid`
normalization, `sample_points`).

Python's dynamically typed values are modelled by the `Val` inductive; mutable
Python lists live in an explicit `Heap` (addresses are `Nat`, a `Val.vref a`
is a list object at address `a`); immutable tuples and strings are plain
values.  Fallible Python code returns `Except PyErr`.  External library calls
(scipy's frozen distributions, numpy's RandomState) are modelled by explicit
deterministic state (`Rng`) or recorded symbolically (`PriorObj`), as noted at
each definition.
-/

namespace Skopt

/-- Python exceptions that the embedded code can raise. -/
inductive PyErr where
  | indexError
  | typeError (msg : String)
  | nameError (nm : String)
  | attributeError (nm : String)
  | runtimeError (msg : String)
  | valueError (msg : String)
  | zeroDivisionError
  deriving DecidableEq, Repr

mutual

/-- A Python value as it appears in this module: ints, floats (modelled as
rationals), strings, `None`, tuples (immutable sequences), references to
mutable lists in the heap, `Distribution` instances, `TransformerMixin`
instances, and scipy `rv_frozen` objects (identified by an opaque tag). -/
inductive Val where
  | vint (n : Int)
  | vfloat (q : ℚ)
  | vstr (s : String)
  | vnone
  | vtup (xs : List Val)
  | vref (a : Nat)
  | vdist (d : Dist)
  | vtrans (t : TransObj)
  | vfrozen (id : Nat)

/-- A transformer object held by a Distribution: `Identity()`, `Log()`,
`Log10()`, a fitted `LabelEncoder`, or a caller-supplied `TransformerMixin`. -/
inductive TransObj where
  | identity
  | log
  | log10
  | labelsFitted (cats : List Val)
  | custom (id : Nat)

/-- The frozen random-variate object stored in `self._rvs`: scipy's
`uniform(loc, scale)`, `randint(low, high)`, an `rv_discrete` over
`range(n)` with given probabilities, or a caller-supplied frozen variate. -/
inductive PriorObj where
  | uniformP (loc scale : Val)
  | randintP (low high : Val)
  | discreteP (n : Nat) (probs : Val)
  | frozenP (id : Nat)

/-- A constructed Distribution: `Real`, `Integer` or `Categorical`, with the
bounds / categories, the `self._rvs` prior object and the transformer the
constructor stored. -/
inductive Dist where
  | real (low high : Val) (rvsObj : PriorObj) (transformer : TransObj)
  | integer (low high : Val) (rvsObj : PriorObj) (transformer : TransObj)
  | categorical (categories : List Val) (rvsObj : PriorObj) (transformer : TransObj)

end

/-- The store of mutable Python lists; address `a` holds `cells[a]`. -/
structure Heap where
  cells : List (List Val)

/-- Read the list object at address `a`. -/
def Heap.lookup (h : Heap) (a : Nat) : List Val :=
  h.cells.getD a []

/-- Allocate a fresh list object; returns the new heap and its address. -/
def Heap.alloc (h : Heap) (xs : List Val) : Heap × Nat :=
  (⟨h.cells ++ [xs]⟩, h.cells.length)

/-- `lst[i] = v` on the list object at address `a`. -/
def Heap.set (h : Heap) (a i : Nat) (v : Val) : Heap :=
  ⟨h.cells.set a ((h.cells.getD a []).set i v)⟩

/-- Python `v == s` for a string literal `s` (false for non-string values). -/
def Val.eqStr (v : Val) (s : String) : Bool :=
  match v with
  | .vstr t => t == s
  | _ => false

/-- `isinstance(v, str)`. -/
def Val.isStr (v : Val) : Bool :=
  match v with
  | .vstr _ => true
  | _ => false

/-- `isinstance(v, numbers.Integral)`. -/
def Val.isIntegral (v : Val) : Bool :=
  match v with
  | .vint _ => true
  | _ => false

/-- `isinstance(v, numbers.Real)`: Python ints are also `numbers.Real`. -/
def Val.isRealNum (v : Val) : Bool :=
  match v with
  | .vint _ => true
  | .vfloat _ => true
  | _ => false

/-- `isinstance(v, (numbers.Number, str))` (our value universe has no complex
numbers, so `numbers.Number` coincides with `numbers.Real`). -/
def Val.isNumOrStr (v : Val) : Bool :=
  v.isRealNum || v.isStr

/-- `isinstance(v, rv_frozen)`. -/
def Val.isFrozen (v : Val) : Bool :=
  match v with
  | .vfrozen _ => true
  | _ => false

/-- `isinstance(v, collections.Sequence)`: lists, tuples and strings. -/
def Val.isSeq (v : Val) : Bool :=
  match v with
  | .vtup _ => true
  | .vref _ => true
  | .vstr _ => true
  | _ => false

/-- `str(v)` as used by `'%s' % v` in error messages (only string values are
ever formatted by the claims; other values get a placeholder text). -/
def Val.pyText (v : Val) : String :=
  match v with
  | .vstr s => s
  | .vint n => toString n
  | _ => "object"

/-- Python subscription `v[i]` for a non-negative index. -/
def getItem (h : Heap) (v : Val) (i : Nat) : Except PyErr Val :=
  match v with
  | .vtup xs =>
      match xs[i]? with
      | some x => .ok x
      | none => .error .indexError
  | .vref a =>
      match (h.lookup a)[i]? with
      | some x => .ok x
      | none => .error .indexError
  | .vstr s =>
      match s.toList[i]? with
      | some c => .ok (.vstr (String.mk [c]))
      | none => .error .indexError
  | _ => .error (.typeError "object is not subscriptable")

/-- Python iteration / `list(v)`: the elements of a sequence. -/
def toPyList (h : Heap) (v : Val) : Except PyErr (List Val) :=
  match v with
  | .vtup xs => .ok xs
  | .vref a => .ok (h.lookup a)
  | .vstr s => .ok (s.toList.map fun c => .vstr (String.mk [c]))
  | _ => .error (.typeError "object is not iterable")

/-- Python `len(v)`. -/
def pyLen (h : Heap) (v : Val) : Except PyErr Nat :=
  match v with
  | .vtup xs => .ok xs.length
  | .vref a => .ok (h.lookup a).length
  | .vstr s => .ok s.length
  | _ => .error (.typeError "object has no len")

/-- Python numeric subtraction, as used by `self._high - self._low`. -/
def vsub (x y : Val) : Except PyErr Val :=
  match x, y with
  | .vint a, .vint b => .ok (.vint (a - b))
  | .vint a, .vfloat b => .ok (.vfloat ((a : ℚ) - b))
  | .vfloat a, .vint b => .ok (.vfloat (a - (b : ℚ)))
  | .vfloat a, .vfloat b => .ok (.vfloat (a - b))
  | _, _ => .error (.typeError "unsupported operand types for subtraction")

/-- numpy `RandomState`, modelled as a deterministic stream of naturals with a
cursor: each draw consumes one stream element.  The concrete stream is the
model of the external Mersenne-Twister generator; everything the embedded
code does with it is deterministic state passing. -/
structure Rng where
  stream : Nat → Nat
  pos : Nat

/-- Consume one raw draw from the generator. -/
def Rng.next (g : Rng) : Nat × Rng :=
  (g.stream g.pos, ⟨g.stream, g.pos + 1⟩)

/-- `rng.randint(0, n)`: a draw in `[0, n)` (model of numpy's bounded draw). -/
def Rng.randint (g : Rng) (n : Nat) : Nat × Rng :=
  let p := g.next
  (p.1 % n, p.2)

/-- `Real.__init__(low, high, prior='uniform', transformer='identity')`.
Dispatches the transformer string exactly as the source does, then the prior:
`'uniform'` stores `uniform(low, high - low)`; an `rv_frozen` object is stored
as-is; otherwise the source builds the ValueError message with
`"... Got %s" % self._rvs`, but `self._rvs` was never assigned, so the
attribute lookup raises `AttributeError` before any ValueError exists. -/
def Real.init (low high : Val) (prior : Val) (transformer : Val) :
    Except PyErr Dist := do
  let trans ←
    if transformer.eqStr "identity" then pure TransObj.identity
    else if transformer.eqStr "log" then pure TransObj.log
    else if transformer.eqStr "log10" then pure TransObj.log10
    else
      match transformer with
      | .vtrans t => pure t
      | _ => Except.error (.runtimeError (transformer.pyText ++ " is not a valid transformer."))
  let pr ←
    if prior.eqStr "uniform" then do
      let scale ← vsub high low
      pure (PriorObj.uniformP low scale)
    else
      match prior with
      | .vfrozen f => pure (PriorObj.frozenP f)
      | _ => Except.error (.attributeError "_rvs")
  pure (Dist.real low high pr trans)

/-- `Integer.__init__(low, high, prior='uniform', transformer='identity')`.
Only the `'identity'` transformer string is recognized; `'uniform'` stores
scipy's `randint(low, high)` (a high-exclusive discrete uniform); a frozen
variate is stored as-is; any other prior hits the same unassigned
`self._rvs` in the error-message formatting and raises `AttributeError`. -/
def Integer.init (low high : Val) (prior : Val) (transformer : Val) :
    Except PyErr Dist := do
  let trans ←
    if transformer.eqStr "identity" then pure TransObj.identity
    else
      match transformer with
      | .vtrans t => pure t
      | _ => Except.error (.runtimeError (transformer.pyText ++ " is not a valid transformer."))
  let pr ←
    if prior.eqStr "uniform" then pure (PriorObj.randintP low high)
    else
      match prior with
      | .vfrozen f => pure (PriorObj.frozenP f)
      | _ => Except.error (.attributeError "_rvs")
  pure (Dist.integer low high pr trans)

/-- `Categorical.__init__(*categories, prior=None, transformer='one-hot')`.
The dispatch tests `transformer == 'onehot'`; in that branch the source calls
`CategoryTransform()`, a name that is defined nowhere in the module (the class
is named `CategoricalEncoder`), so Python raises `NameError`.  The default
argument `'one-hot'` matches no branch and falls through to `RuntimeError`.
`'labels'` fits a `LabelEncoder` on the categories.  With `prior=None` the
probabilities are `np.tile(1./len(categories), len(categories))`
(`ZeroDivisionError` for zero categories); the stored `self._rvs` is
`rv_discrete(values=(range(len(categories)), prior))`. -/
def Categorical.init (categories : List Val) (prior : Val) (transformer : Val) :
    Except PyErr Dist := do
  let trans ←
    if transformer.eqStr "onehot" then
      Except.error (PyErr.nameError "CategoryTransform")
    else if transformer.eqStr "labels" then
      pure (TransObj.labelsFitted categories)
    else
      match transformer with
      | .vtrans t => pure t
      | _ => Except.error (.runtimeError (transformer.pyText ++ " is not a valid transformer."))
  let probs ←
    match prior with
    | .vnone =>
        if categories.length = 0 then Except.error PyErr.zeroDivisionError
        else pure (Val.vtup (List.replicate categories.length
          (Val.vfloat (1 / (categories.length : ℚ)))))
    | p => pure p
  pure (Dist.categorical categories (PriorObj.discreteP categories.length probs) trans)

/-- `Distribution.rvs(n_samples=None, random_state=...)`, dispatched on the
variant.  For `Real` and `Integer` the source draws
`random_vals = self._rvs.rvs(size=n_samples, random_state=random_state)` and
then returns `np.clip(random_vals, low, high)` — but `low` and `high` are
names bound neither locally, nor in the module, nor in builtins, so the call
raises `NameError` (the external scipy draw that precedes it is unobservable
past the exception and is omitted).  For `Categorical` the source draws an
index from the stored `rv_discrete` over `range(len(categories))` (modelled
as one RNG draw reduced mod the support size) and maps it through
`self.categories`. -/
def Dist.rvs (d : Dist) (nSamples : Option Nat) (rng : Rng) :
    Except PyErr (Val × Rng) :=
  match d with
  | .real _ _ _ _ => .error (.nameError "low")
  | .integer _ _ _ _ => .error (.nameError "low")
  | .categorical cats _ _ =>
      let p := rng.next
      .ok (cats.getD (p.1 % cats.length) .vnone, p.2)

/-- One step of `check_grid`'s classification of a per-dimension spec `d`
(the body of `for i, dist in enumerate(sub_grid_)`): returns `none` when the
slot is left alone and `some v` when the source assigns `sub_grid_[i] = v`.
Distribution instances pass through; `len(dist) > 2 or isinstance(dist[0],
str)` builds `Categorical(*dist)`; an integral `dist[0]` builds
`Integer(*dist)` (checked before real, as in the source); a non-integral real
`dist[0]` builds `Real(*dist)`; any other spec matches no branch and is left
in place.  Calling a two-argument constructor with the wrong number of
splatted arguments is Python's `TypeError`. -/
def classify (h : Heap) (d : Val) : Except PyErr (Option Val) :=
  match d with
  | .vdist _ => .ok none
  | _ => do
    let n ← pyLen h d
    if 2 < n then do
      let elems ← toPyList h d
      let c ← Categorical.init elems .vnone (.vstr "one-hot")
      pure (some (.vdist c))
    else do
      let d0 ← getItem h d 0
      if d0.isStr then do
        let elems ← toPyList h d
        let c ← Categorical.init elems .vnone (.vstr "one-hot")
        pure (some (.vdist c))
      else if d0.isIntegral then do
        let elems ← toPyList h d
        match elems with
        | [lo, hi] => do
            let dd ← Integer.init lo hi (.vstr "uniform") (.vstr "identity")
            pure (some (.vdist dd))
        | _ => Except.error (.typeError "Integer() takes two positional arguments")
      else if d0.isRealNum then do
        let elems ← toPyList h d
        match elems with
        | [lo, hi] => do
            let dd ← Real.init lo hi (.vstr "uniform") (.vstr "identity")
            pure (some (.vdist dd))
        | _ => Except.error (.typeError "Real() takes two positional arguments")
      else pure none

/-- The inner loop of `check_grid` over the freshly copied sub-grid at heap
address `addr`: reads slot `i` from the live list, classifies it, performs
the assignment `sub_grid_[i] = ...` when the classification produced a
replacement, and moves to the next slot.  `fuel` is the number of remaining
slots (the list's length never changes, so this is `len(sub_grid_) - i`). -/
def classifyLoop (h : Heap) (addr : Nat) (i : Nat) (fuel : Nat) :
    Except PyErr Heap :=
  match fuel with
  | 0 => .ok h
  | f + 1 =>
    match classify h ((h.lookup addr).getD i .vnone) with
    | .error e => .error e
    | .ok none => classifyLoop h addr (i + 1) f
    | .ok (some v) => classifyLoop (h.set addr i v) addr (i + 1) f

/-- The outer loop of `check_grid` (`for sub_grid in grid`): copy each
sub-grid into a fresh list (`sub_grid_ = list(sub_grid)`), append the fresh
reference to the result (`grid_.append(sub_grid_)`), then classify every
slot of the copy in place. -/
def gridLoop (h : Heap) (sgs : List Val) : Except PyErr (Heap × List Val) :=
  match sgs with
  | [] => .ok (h, [])
  | sg :: rest =>
    match toPyList h sg with
    | .error e => .error e
    | .ok elems =>
      match classifyLoop (h.alloc elems).1 (h.alloc elems).2 0 elems.length with
      | .error e => .error e
      | .ok h2 =>
        match gridLoop h2 rest with
        | .error e => .error e
        | .ok pr => .ok (pr.1, .vref (h.alloc elems).2 :: pr.2)

/-- The flat-vs-nested detection at the top of `check_grid`, together with
the wrapping `grid = [grid]`: the grid is flat — and wrapped in a one-element
outer list — when `grid[0]` is a Distribution, or is a sequence whose first
element is a number or a string (the `or` short-circuits exactly as in the
source, so `grid[0][0]` is read only when `grid[0]` is a non-Distribution
sequence); otherwise the grid's own elements are the sub-grids. -/
def subGrids (h : Heap) (grid : Val) : Except PyErr (List Val) :=
  match getItem h grid 0 with
  | .error e => .error e
  | .ok g0 =>
    match g0 with
    | .vdist _ => .ok [grid]
    | _ =>
      if g0.isSeq then
        match getItem h g0 0 with
        | .error e => .error e
        | .ok g00 => if g00.isNumOrStr then .ok [grid] else toPyList h grid
      else toPyList h grid

/-- `check_grid(grid)`: detect the sub-grid structure, then copy and
classify every sub-grid with `gridLoop`/`classifyLoop`.  Returns the final
heap together with the list of references that make up the returned
`grid_`. -/
def check_grid (h : Heap) (grid : Val) : Except PyErr (Heap × List Val) :=
  match subGrids h grid with
  | .error e => .error e
  | .ok sgs => gridLoop h sgs

/-- The per-dimension draws of one sampled point (`for dist in sub_grid`):
under scipy `< 0.16` the source calls `dist.rvs()` with no random state, so
the draw consumes the process-global numpy generator `glob`; otherwise it
calls `dist.rvs(random_state=rng)` with the shared seeded generator.
Calling `.rvs` on a value that is not a Distribution is Python's
`AttributeError`. -/
def drawParams (spLt016 : Bool) (dists : List Val) (rng glob : Rng) :
    Except PyErr (List Val × Rng × Rng) :=
  match dists with
  | [] => .ok ([], rng, glob)
  | d :: rest =>
    match d with
    | .vdist dd =>
      if spLt016 then
        match dd.rvs none glob with
        | .error e => .error e
        | .ok vg =>
          match drawParams spLt016 rest rng vg.2 with
          | .error e => .error e
          | .ok pr => .ok (vg.1 :: pr.1, pr.2.1, pr.2.2)
      else
        match dd.rvs none rng with
        | .error e => .error e
        | .ok vg =>
          match drawParams spLt016 rest vg.2 glob with
          | .error e => .error e
          | .ok pr => .ok (vg.1 :: pr.1, pr.2.1, pr.2.2)
    | _ => .error (.attributeError "rvs")

/-- The `for n in range(n_points)` loop of `sample_points`: choose a sub-grid
index with `rng.randint(0, len(grid_))`, draw one value per dimension of that
sub-grid, yield the tuple, and continue with the advanced generators. -/
def sampleLoop (spLt016 : Bool) (h : Heap) (gridList : List Val) (n : Nat)
    (rng glob : Rng) : Except PyErr (List (List Val)) :=
  match n with
  | 0 => .ok []
  | m + 1 =>
    match toPyList h (gridList.getD (rng.randint gridList.length).1 .vnone) with
    | .error e => .error e
    | .ok dists =>
      match drawParams spLt016 dists (rng.randint gridList.length).2 glob with
      | .error e => .error e
      | .ok pr =>
        match sampleLoop spLt016 h gridList m pr.2.1 pr.2.2 with
        | .error e => .error e
        | .ok rest => .ok (pr.1 :: rest)

/-- `sample_points(grid, n_points=1, random_state=None)` with the generator
fully consumed: normalize the grid with `check_grid`, build the seeded
generator `rng = check_random_state(random_state)` (the external numpy
seeding function is the parameter `mkRng`), and run the sampling loop.
`spLt016` is the environment constant `sp_version < (0, 16)`; `glob` is the
state of the process-global numpy generator, which the source consumes
instead of `rng` in the `< 0.16` branch. -/
def sample_points (mkRng : Option Int → Rng) (spLt016 : Bool) (glob : Rng)
    (h : Heap) (grid : Val) (nPoints : Nat) (randomState : Option Int) :
    Except PyErr (List (List Val)) :=
  match check_grid h grid with
  | .error e => .error e
  | .ok pr => sampleLoop spLt016 pr.1 pr.2 nPoints (mkRng randomState) glob

/-!  The numeric behaviour of the stateless transformers `Identity`, `Log` and
`Log10`, modelled pointwise over the reals (numpy applies them elementwise;
`np.log`/`np.exp`/`np.log10`/`10 ** x` are the idealized real functions). -/

/-- `Identity.transform`: a no-op. -/
def Identity.transform (x : ℝ) : ℝ := x

/-- `Identity.inverse_transform`: a no-op. -/
def Identity.inverse_transform (x : ℝ) : ℝ := x

/-- `Log.transform`: `np.log(values)`, the natural logarithm. -/
noncomputable def Log.transform (x : ℝ) : ℝ := Real.log x

/-- `Log.inverse_transform`: `np.exp(values)`. -/
noncomputable def Log.inverse_transform (x : ℝ) : ℝ := Real.exp x

/-- `Log10.transform`: `np.log10(values)`, the base-10 logarithm. -/
noncomputable def Log10.transform (x : ℝ) : ℝ := Real.logb 10 x

/-- `Log10.inverse_transform`: `10 ** np.asarray(values)`. -/
noncomputable def Log10.inverse_transform (x : ℝ) : ℝ := (10 : ℝ) ^ x

/-!  Heap lemmas: `Heap.set` touches exactly one address and `Heap.alloc`
touches none, which is what the `check_grid` frame property rests on. -/

theorem Heap.lookup_set_ne (h : Heap) (a i : Nat) (v : Val) (b : Nat)
    (hne : b ≠ a) : (h.set a i v).lookup b = h.lookup b := by
  unfold Heap.set Heap.lookup
  simp [List.getD_eq_getElem?_getD, List.getElem?_set_ne (Ne.symm hne)]

theorem Heap.length_set_cells (h : Heap) (a i : Nat) (v : Val) :
    (h.set a i v).cells.length = h.cells.length := by
  unfold Heap.set
  simp

theorem Heap.lookup_alloc_lt (h : Heap) (xs : List Val) (b : Nat)
    (hb : b < h.cells.length) : (h.alloc xs).1.lookup b = h.lookup b := by
  unfold Heap.alloc Heap.lookup
  simp [List.getD_eq_getElem?_getD, List.getElem?_append, hb]

theorem Heap.length_alloc_cells (h : Heap) (xs : List Val) :
    (h.alloc xs).1.cells.length = h.cells.length + 1 := by
  unfold Heap.alloc
  simp

/-- The classification loop writes only to the sub-grid copy at `addr`: every
other address is untouched, and no cell is created or destroyed. -/
theorem classifyLoop_frame (fuel : Nat) :
    ∀ (h : Heap) (addr i : Nat) (h' : Heap),
      classifyLoop h addr i fuel = .ok h' →
      (∀ b, b ≠ addr → h'.lookup b = h.lookup b) ∧
        h'.cells.length = h.cells.length := by
  induction fuel with
  | zero =>
    intro h addr i h' hok
    rw [classifyLoop] at hok
    injection hok with hh
    subst hh
    exact ⟨fun _ _ => rfl, rfl⟩
  | succ f ih =>
    intro h addr i h' hok
    rw [classifyLoop] at hok
    split at hok
    · exact absurd hok (by simp)
    · exact ih h addr (i + 1) h' hok
    · rename_i v heq
      obtain ⟨hp, hl⟩ := ih _ addr (i + 1) h' hok
      refine ⟨fun b hb => ?_, ?_⟩
      · rw [hp b hb, Heap.lookup_set_ne h addr i v b hb]
      · rw [hl, Heap.length_set_cells]

/-- The outer `check_grid` loop only allocates fresh sub-grid copies and
mutates those: every address that existed before the call still holds
exactly its old list afterwards. -/
theorem gridLoop_frame (sgs : List Val) :
    ∀ (h h' : Heap) (out : List Val), gridLoop h sgs = .ok (h', out) →
      h.cells.length ≤ h'.cells.length ∧
        ∀ b, b < h.cells.length → h'.lookup b = h.lookup b := by
  induction sgs with
  | nil =>
    intro h h' out hok
    rw [gridLoop] at hok
    injection hok with hpr
    have h1 : h = h' := congrArg Prod.fst hpr
    subst h1
    exact ⟨Nat.le_refl _, fun _ _ => rfl⟩
  | cons sg rest ih =>
    intro h h' out hok
    rw [gridLoop] at hok
    split at hok
    · exact absurd hok (by simp)
    · rename_i elems helems
      split at hok
      · exact absurd hok (by simp)
      · rename_i h2 hcl
        split at hok
        · exact absurd hok (by simp)
        · rename_i pr hgl
          injection hok with hpr
          have hfst : pr.1 = h' := congrArg Prod.fst hpr
          obtain ⟨hcp, hcl2⟩ := classifyLoop_frame elems.length _ _ 0 h2 hcl
          obtain ⟨hgle, hglp⟩ := ih h2 pr.1 pr.2 (by rw [hgl])
          rw [hfst] at hgle hglp
          constructor
          · calc h.cells.length ≤ h.cells.length + 1 := Nat.le_succ _
              _ = (h.alloc elems).1.cells.length := (Heap.length_alloc_cells h elems).symm
              _ = h2.cells.length := hcl2.symm
              _ ≤ h'.cells.length := hgle
          · intro b hb
            have hb2 : b < h2.cells.length := by
              rw [hcl2, Heap.length_alloc_cells]
              exact Nat.lt_succ_of_lt hb
            rw [hglp b hb2, hcp b (Nat.ne_of_lt hb),
              Heap.lookup_alloc_lt h elems b hb]

/-!  Noninterference of the process-global generator with seeded sampling:
when `sp_version < (0, 16)` is false, every draw goes through the shared
seeded generator, so the global generator's state never reaches the output. -/

theorem drawParams_seeded_ignores_global (ds : List Val) :
    ∀ (rng g1 g2 : Rng),
      (∃ e, drawParams false ds rng g1 = .error e ∧
            drawParams false ds rng g2 = .error e) ∨
      (∃ p r, drawParams false ds rng g1 = .ok (p, r, g1) ∧
              drawParams false ds rng g2 = .ok (p, r, g2)) := by
  induction ds with
  | nil =>
    intro rng g1 g2
    exact Or.inr ⟨[], rng, rfl, rfl⟩
  | cons d rest ih =>
    intro rng g1 g2
    cases d
    case vdist dd =>
      cases hr : dd.rvs none rng with
      | error e =>
        exact Or.inl ⟨e, by simp [drawParams, hr], by simp [drawParams, hr]⟩
      | ok vg =>
        rcases ih vg.2 g1 g2 with ⟨e, he1, he2⟩ | ⟨p, r, hp1, hp2⟩
        · exact Or.inl ⟨e, by simp [drawParams, hr, he1],
            by simp [drawParams, hr, he2]⟩
        · exact Or.inr ⟨vg.1 :: p, r, by simp [drawParams, hr, hp1],
            by simp [drawParams, hr, hp2]⟩
    all_goals exact Or.inl ⟨.attributeError "rvs", rfl, rfl⟩

theorem sampleLoop_seeded_ignores_global (h : Heap) (gl : List Val) (n : Nat) :
    ∀ (rng g1 g2 : Rng),
      sampleLoop false h gl n rng g1 = sampleLoop false h gl n rng g2 := by
  induction n with
  | zero => intro rng g1 g2; rfl
  | succ m ih =>
    intro rng g1 g2
    rw [sampleLoop, sampleLoop]
    cases htl : toPyList h (gl.getD (rng.randint gl.length).1 .vnone) with
    | error e => rfl
    | ok dists =>
      dsimp only
      rcases drawParams_seeded_ignores_global dists (rng.randint gl.length).2 g1 g2
        with ⟨e, he1, he2⟩ | ⟨p, r, hp1, hp2⟩
      · rw [he1, he2]
      · rw [hp1, hp2]
        dsimp only
        rw [ih r g1 g2]

/-!  Concrete grids used by the claim theorems below. -/

/-- The flat grid `[(1, 2), (3.0, 5.0)]`: one list object holding two tuples. -/
def gridFlatNum : Heap :=
  ⟨[[.vtup [.vint 1, .vint 2], .vtup [.vfloat 3, .vfloat 5]]]⟩

/-- `check_grid`'s result heap for `gridFlatNum`: the caller's list plus one
fresh classified copy. -/
def gridFlatNumChecked : Heap :=
  ⟨[[.vtup [.vint 1, .vint 2], .vtup [.vfloat 3, .vfloat 5]],
    [.vdist (.integer (.vint 1) (.vint 2)
        (.randintP (.vint 1) (.vint 2)) .identity),
     .vdist (.real (.vfloat 3) (.vfloat 5)
        (.uniformP (.vfloat 3) (.vfloat (5 - 3))) .identity)]]⟩

/-- The nested grid `[[(1, 2)], [(3.0, 5.0)]]`: an outer list of two inner
list objects, each holding one tuple. -/
def gridNestedNum : Heap :=
  ⟨[[.vref 1, .vref 2], [.vtup [.vint 1, .vint 2]], [.vtup [.vfloat 3, .vfloat 5]]]⟩

/-- The grid `[("a", "b", "c")]`: one list object holding one string tuple. -/
def gridCatStr : Heap :=
  ⟨[[.vtup [.vstr "a", .vstr "b", .vstr "c"]]]⟩

/-- A normalized grid holding one pre-built `Categorical("a", "b")` whose
transformer was supplied explicitly (the only way its constructor succeeds). -/
def gridPrebuiltCat : Heap :=
  ⟨[[.vdist (.categorical [.vstr "a", .vstr "b"]
      (.discreteP 2 (.vtup [.vfloat (1 / 2), .vfloat (1 / 2)])) .identity)]]⟩

/-- Claim C1: the claim says every value returned by `Real.rvs` and
`Integer.rvs` is clamped into the distribution's own `[low, high]`.  The code
instead evaluates `np.clip(random_vals, low, high)` with `low` and `high`
unbound names, so for every bounds, prior, transformer, sample count and
random state, `rvs` raises `NameError` and never returns any value at all. -/
theorem C1_rvs_raises_nameError (lo hi : Val) (pr : PriorObj) (t : TransObj)
    (n : Option Nat) (g : Rng) :
    Dist.rvs (.real lo hi pr t) n g = .error (.nameError "low") ∧
    Dist.rvs (.integer lo hi pr t) n g = .error (.nameError "low") :=
  ⟨rfl, rfl⟩

/-- Claim C2: the claim says `Categorical(*categories)` with the default
transformer argument succeeds and holds an eagerly fitted one-hot encoder.
The default argument `'one-hot'` matches neither dispatch string, so
construction raises `RuntimeError`; and even the `'onehot'` spelling the
dispatch tests for would call the undefined name `CategoryTransform` and
raise `NameError`. -/
theorem C2_categorical_default_construction_fails :
    Categorical.init [.vstr "a", .vstr "b"] .vnone (.vstr "one-hot") =
      .error (.runtimeError "one-hot is not a valid transformer.") ∧
    Categorical.init [.vstr "a", .vstr "b"] .vnone (.vstr "onehot") =
      .error (.nameError "CategoryTransform") :=
  ⟨rfl, rfl⟩

/-- Claim C3, counterexample: on the nested grid `[[(None, 1)]]`, whose only
spec is a length-2 tuple with a non-number, non-string first element,
`check_grid` raises nothing: it returns successfully with the raw spec left
verbatim in the fresh sub-grid copy, contradicting the claim that such a spec
causes an invalid-argument error. -/
theorem C3_counterexample :
    check_grid ⟨[[.vref 1], [.vtup [.vnone, .vint 1]]]⟩ (.vref 0) =
      .ok (⟨[[.vref 1], [.vtup [.vnone, .vint 1]], [.vtup [.vnone, .vint 1]]]⟩,
        [.vref 2]) :=
  rfl

/-- Claim C3, amended: a length-2 spec whose first element is neither a
number nor a string matches none of `check_grid`'s classification branches
and is silently left unchanged in the returned grid; no error is raised for
it. -/
theorem C3_unclassifiable_spec_left_in_place (v w : Val)
    (hv : v.isNumOrStr = false) :
    check_grid ⟨[[.vref 1], [.vtup [v, w]]]⟩ (.vref 0) =
      .ok (⟨[[.vref 1], [.vtup [v, w]], [.vtup [v, w]]]⟩, [.vref 2]) := by
  cases v with
  | vint n => simp [Val.isNumOrStr, Val.isRealNum, Val.isStr] at hv
  | vfloat q => simp [Val.isNumOrStr, Val.isRealNum, Val.isStr] at hv
  | vstr s => simp [Val.isNumOrStr, Val.isRealNum, Val.isStr] at hv
  | vnone => rfl
  | vtup xs => rfl
  | vref a => rfl
  | vdist d => rfl
  | vtrans t => rfl
  | vfrozen f => rfl

/-- Witness for the amended C3 theorem at a concrete unclassifiable spec
`((), "x")`. -/
theorem C3_unclassifiable_spec_left_in_place_witness :
    (Val.vtup []).isNumOrStr = false ∧
    check_grid ⟨[[.vref 1], [.vtup [.vtup [], .vstr "x"]]]⟩ (.vref 0) =
      .ok (⟨[[.vref 1], [.vtup [.vtup [], .vstr "x"]],
             [.vtup [.vtup [], .vstr "x"]]]⟩, [.vref 2]) :=
  ⟨rfl, C3_unclassifiable_spec_left_in_place (.vtup []) (.vstr "x") rfl⟩

/-- Claim C4: the claim says an unknown prior makes `Real`/`Integer`
construction fail with a `ValueError` naming the bad prior and with no other
kind of failure.  The code's `raise ValueError(... % self._rvs)` formats the
unassigned attribute `self._rvs`, so the construction actually fails with
`AttributeError` for every prior that is neither `'uniform'` nor a frozen
variate. -/
theorem C4_bad_prior_raises_attributeError (lo hi p : Val)
    (h1 : p.eqStr "uniform" = false) (h2 : p.isFrozen = false) :
    Real.init lo hi p (.vstr "identity") = .error (.attributeError "_rvs") ∧
    Integer.init lo hi p (.vstr "identity") = .error (.attributeError "_rvs") := by
  cases p with
  | vstr s =>
    constructor
    · unfold Real.init
      rw [h1]
      rfl
    · unfold Integer.init
      rw [h1]
      rfl
  | vfrozen f => exact absurd h2 (by simp [Val.isFrozen])
  | vint n => exact ⟨rfl, rfl⟩
  | vfloat q => exact ⟨rfl, rfl⟩
  | vnone => exact ⟨rfl, rfl⟩
  | vtup xs => exact ⟨rfl, rfl⟩
  | vref a => exact ⟨rfl, rfl⟩
  | vdist d => exact ⟨rfl, rfl⟩
  | vtrans t => exact ⟨rfl, rfl⟩

/-- Witness for C4 at the concrete bad prior `'gaussian'` with bounds
`0.0 < 1.0` (Real) and `0 < 5` (Integer). -/
theorem C4_bad_prior_raises_attributeError_witness :
    (Val.vstr "gaussian").eqStr "uniform" = false ∧
    (Val.vstr "gaussian").isFrozen = false ∧
    Real.init (.vfloat 0) (.vfloat 1) (.vstr "gaussian") (.vstr "identity") =
      .error (.attributeError "_rvs") ∧
    Integer.init (.vint 0) (.vint 5) (.vstr "gaussian") (.vstr "identity") =
      .error (.attributeError "_rvs") :=
  ⟨rfl, rfl,
    (C4_bad_prior_raises_attributeError (.vfloat 0) (.vfloat 1)
      (.vstr "gaussian") rfl rfl).1,
    (C4_bad_prior_raises_attributeError (.vint 0) (.vint 5)
      (.vstr "gaussian") rfl rfl).2⟩

/-- Claim C5: `check_grid`'s classification on the spec's three examples.
The flat grid `[(1, 2), (3.0, 5.0)]` is wrapped as one sub-grid and becomes
`[Integer(1, 2), Real(3.0, 5.0)]` (integral checked before real); the nested
grid `[[(1, 2)], [(3.0, 5.0)]]` becomes two one-Distribution sub-grids.  But
the claim's Categorical branch fails on the code: `[("a", "b", "c")]` does
select the Categorical branch, and the `Categorical` constructor then raises
`RuntimeError` because its default transformer `'one-hot'` is not a
recognized dispatch string, so no Categorical over the elements is ever
produced. -/
theorem C5_check_grid_classification :
    check_grid gridFlatNum (.vref 0) = .ok (gridFlatNumChecked, [.vref 1]) ∧
    check_grid gridNestedNum (.vref 0) =
      .ok (⟨[[.vref 1, .vref 2], [.vtup [.vint 1, .vint 2]],
             [.vtup [.vfloat 3, .vfloat 5]],
             [.vdist (.integer (.vint 1) (.vint 2)
                (.randintP (.vint 1) (.vint 2)) .identity)],
             [.vdist (.real (.vfloat 3) (.vfloat 5)
                (.uniformP (.vfloat 3) (.vfloat (5 - 3))) .identity)]]⟩,
           [.vref 3, .vref 4]) ∧
    check_grid gridCatStr (.vref 0) =
      .error (.runtimeError "one-hot is not a valid transformer.") :=
  ⟨rfl, rfl, rfl⟩

/-- Claim C6, counterexample: under scipy `< 0.16` the source calls
`dist.rvs()` with no random state, so the draw consumes the process-global
generator.  With the same grid, point count, seed and seeding function, two
runs whose global generator is in different states return different tuples:
the output is not a function of the grid, the point count and the seed
alone. -/
theorem C6_counterexample :
    sample_points (fun _ => ⟨fun _ => 0, 0⟩) true ⟨fun _ => 0, 0⟩
        gridPrebuiltCat (.vref 0) 1 (some 42) ≠
    sample_points (fun _ => ⟨fun _ => 0, 0⟩) true ⟨fun _ => 1, 0⟩
        gridPrebuiltCat (.vref 0) 1 (some 42) := by
  intro hcontr
  have h2 : (Except.ok [[Val.vstr "a"]] : Except PyErr (List (List Val))) =
      Except.ok [[Val.vstr "b"]] := hcontr
  injection h2 with h3
  injection h3 with h4 h5
  injection h4 with h6 h7
  injection h6 with h8
  exact absurd h8 (by decide)

/-- Claim C6, amended: provided scipy is at least 0.16 — the branch in which
every `rvs` call receives the shared seeded generator — `sample_points` is a
deterministic function of the grid, the point count and the seed: its output
does not depend on the state of the process-global generator, so two runs
with the same seed produce identical sequences. -/
theorem C6_seeded_sampling_deterministic (mkRng : Option Int → Rng)
    (g1 g2 : Rng) (h : Heap) (grid : Val) (n : Nat) (seed : Option Int) :
    sample_points mkRng false g1 h grid n seed =
    sample_points mkRng false g2 h grid n seed := by
  unfold sample_points
  cases check_grid h grid with
  | error e => rfl
  | ok pr => exact sampleLoop_seeded_ignores_global pr.1 pr.2 n (mkRng seed) g1 g2

/-- Claim C7: `inverse_transform` is the exact inverse of `transform` for
Identity everywhere and for Log and Log10 on strictly positive inputs (in
the idealized real-number semantics of the floating-point operations, i.e.
up to floating-point rounding). -/
theorem C7_transform_roundtrip (x : ℝ) :
    Identity.inverse_transform (Identity.transform x) = x ∧
    (0 < x → Log.inverse_transform (Log.transform x) = x) ∧
    (0 < x → Log10.inverse_transform (Log10.transform x) = x) := by
  refine ⟨rfl, fun hx => Real.exp_log hx, fun hx => ?_⟩
  exact Real.rpow_logb (by norm_num) (by norm_num) hx

/-- Witness for C7 at `x = 2`. -/
theorem C7_transform_roundtrip_witness :
    (0:ℝ) < 2 ∧
    Identity.inverse_transform (Identity.transform 2) = 2 ∧
    Log.inverse_transform (Log.transform 2) = 2 ∧
    Log10.inverse_transform (Log10.transform 2) = 2 :=
  ⟨two_pos, (C7_transform_roundtrip 2).1,
    (C7_transform_roundtrip 2).2.1 two_pos,
    (C7_transform_roundtrip 2).2.2 two_pos⟩

/-- Claim C8: whenever `check_grid` returns, every list object that existed
in the heap before the call — the input grid, its sub-grid lists, and the raw
specs they contain — still holds exactly its old contents: normalization
replaces specs only inside its own fresh copies. -/
theorem C8_check_grid_preserves_input (h : Heap) (grid : Val) (h' : Heap)
    (out : List Val) (hok : check_grid h grid = .ok (h', out)) :
    ∀ a, a < h.cells.length → h'.lookup a = h.lookup a := by
  unfold check_grid at hok
  cases hsg : subGrids h grid with
  | error e =>
    rw [hsg] at hok
    exact absurd hok (by simp)
  | ok sgs =>
    rw [hsg] at hok
    exact fun a ha => (gridLoop_frame sgs h h' out hok).2 a ha

/-- Witness for C8 on the flat grid `[(1, 2), (3.0, 5.0)]`: the call
succeeds and the caller's list object at address 0 is unchanged. -/
theorem C8_check_grid_preserves_input_witness :
    check_grid gridFlatNum (.vref 0) = .ok (gridFlatNumChecked, [.vref 1]) ∧
    gridFlatNumChecked.lookup 0 = gridFlatNum.lookup 0 :=
  ⟨rfl, C8_check_grid_preserves_input gridFlatNum (.vref 0) gridFlatNumChecked
    [.vref 1] rfl 0 (by decide)⟩

/-- Claim C9: the claim says every value drawn by an `Integer(low, high)`
with the default `'uniform'` prior is an integer in `[low, high)`.  The
constructor does store scipy's high-exclusive `randint(low, high)` as the
prior, but `Integer.rvs` never returns any drawn value: it raises
`NameError` on the unbound `low` in its clip expression, for every sample
count and random state. -/
theorem C9_integer_uniform_prior (lo hi : Val) :
    Integer.init lo hi (.vstr "uniform") (.vstr "identity") =
      .ok (.integer lo hi (.randintP lo hi) .identity) ∧
    ∀ (n : Option Nat) (g : Rng),
      Dist.rvs (.integer lo hi (.randintP lo hi) .identity) n g =
        .error (.nameError "low") :=
  ⟨rfl, fun _ _ => rfl⟩

/-- Claim C10: `check_grid` on an empty grid, or on a grid whose first
element is an empty list, dies with `IndexError` from the flat-vs-nested
detection's unconditional reads of `grid[0]` and `grid[0][0]`, and iterating
`sample_points` propagates the same error; no empty normalized grid is ever
returned. -/
theorem C10_empty_grid_index_error (h h2 : Heap) (a c b : Nat)
    (rest : List Val) (ha : h.lookup a = [])
    (hc : h2.lookup c = .vref b :: rest) (hb : h2.lookup b = [])
    (mkRng : Option Int → Rng) (sp : Bool) (g : Rng) (n : Nat)
    (seed : Option Int) :
    check_grid h (.vref a) = .error .indexError ∧
    check_grid h2 (.vref c) = .error .indexError ∧
    sample_points mkRng sp g h (.vref a) n seed = .error .indexError := by
  have h1 : check_grid h (.vref a) = .error .indexError := by
    simp [check_grid, subGrids, getItem, ha]
  have h2' : check_grid h2 (.vref c) = .error .indexError := by
    simp [check_grid, subGrids, getItem, Val.isSeq, hc, hb]
  refine ⟨h1, h2', ?_⟩
  simp [sample_points, h1]

/-- Witness for C10: the empty grid `[]`, the grid `[[]]` whose first
element is an empty list, and one `sample_points` call on the empty grid. -/
theorem C10_empty_grid_index_error_witness :
    (Heap.lookup ⟨[[]]⟩ 0 = []) ∧
    (Heap.lookup ⟨[[.vref 1], []]⟩ 0 = [.vref 1]) ∧
    (Heap.lookup ⟨[[.vref 1], []]⟩ 1 = []) ∧
    check_grid ⟨[[]]⟩ (.vref 0) = .error .indexError ∧
    check_grid ⟨[[.vref 1], []]⟩ (.vref 0) = .error .indexError ∧
    sample_points (fun _ => ⟨fun _ => 0, 0⟩) false ⟨fun _ => 0, 0⟩
      ⟨[[]]⟩ (.vref 0) 1 none = .error .indexError := by
  obtain ⟨p1, p2, p3⟩ := C10_empty_grid_index_error ⟨[[]]⟩ ⟨[[.vref 1], []]⟩
    0 0 1 [] rfl rfl rfl (fun _ => ⟨fun _ => 0, 0⟩) false ⟨fun _ => 0, 0⟩ 1 none
  exact ⟨rfl, rfl, rfl, p1, p2, p3⟩

end Skopt
